import Mathlib

/-!
# Verification of the mosaic-server protocol engine

A shallow embedding of the `mosaic-server` crate: the per-connection
protocol engine (`src/handler.rs`), the submission validator
(`src/validation.rs`), the store adapter (`src/store.rs`), the session
state (`src/client.rs`) and the relevant part of the connection driver
(`src/lib.rs`), together with theorems about them.

The external crate `mosaic-core` (wire parsing, signatures, hashing) is
out of scope for the repository; a `Message` here carries the *results*
of the `mosaic-core` accessors that the server consults, one field per
accessor. Byte strings are modelled as `List Nat`.
-/

namespace MosaicServer

/-- Result codes used in acknowledgements (`mosaic_core::ResultCode`). -/
inductive ResultCode where
  | Success
  | Accepted
  | Duplicate
  | Invalid
  | TooLarge
  | NotFound
  | GeneralError
deriving DecidableEq, Repr

/-- Message types dispatched by the server (`mosaic_core::MessageType`). -/
inductive MessageType where
  | Hello
  | HelloAck
  | Get
  | Query
  | Subscribe
  | Unsubscribe
  | Submission
  | SubmissionResult
  | Closing
  | Unrecognized
  | RecordFrame
  | QueryClosed
deriving DecidableEq, Repr

/-- A record's 48-byte identifier, modelled as its byte list. -/
abbrev Id := List Nat

/-- A 48-byte lookup key (`mosaic_core::Reference`). -/
abbrev Reference := List Nat

/-- An opaque client-chosen query tag (`mosaic_core::QueryId`). -/
abbrev QueryId := Nat

/-- A verified record as returned by `OwnedRecord::from_vec`: its id and
its canonical bytes.  The cryptographic content checks live inside the
external `mosaic-core` crate and are reflected by whether a message's
parse field succeeds. -/
structure Rec where
  id : Id
  bytes : List Nat
deriving DecidableEq, Repr

/-- In the server's own in-memory store and in its LMDB adapter a record
is keyed by its id bytes and probed by a reference with the same bytes,
so `Id::to_reference` is byte-identity here. -/
def idToReference (i : Id) : Reference := i

/-- Error kinds of the external `mosaic_core::Error`; the server only
discriminates `RecordTooLong` from everything else
(`validation.rs:23-26`). -/
inductive CoreInnerError where
  | RecordTooLong
  | Other (s : String)
deriving DecidableEq, Repr

/-- `mosaic_core::Error`, reduced to the `inner` kind the server reads. -/
structure CoreError where
  inner : CoreInnerError
deriving DecidableEq, Repr

/-- Error kinds of this crate (`src/error.rs`); the source-location field
is diagnostic only and is not modelled. -/
inductive InnerError where
  | General (s : String)
  | MosaicCore (e : CoreError)
deriving DecidableEq, Repr

/-- A mosaic-server error (`src/error.rs`), without the caller location. -/
structure Error where
  inner : InnerError
deriving DecidableEq, Repr

/-- `InnerError::into_err` (`error.rs:84-89`). -/
def InnerError.into_err (e : InnerError) : Error := ⟨e⟩

/-- Result of attempting to insert a record (`store.rs:10-13`). -/
inductive PutResult where
  | Inserted
  | Duplicate
deriving DecidableEq, Repr

/-- An inbound protocol frame, seen through the `mosaic-core` accessors
the handlers call.  Each field is the value the corresponding accessor
returns on this frame:

* `message_type` — `Message::message_type()`;
* `query_id` — `Message::query_id()`;
* `references` — `Message::references()`;
* `mosaic_major_version` — `Message::mosaic_major_version()`;
* `len` — `Message::len()`, the frame length in bytes;
* `application_ids` — `Message::application_ids()`;
* `ownedRecordFromVec` — `OwnedRecord::from_vec` applied to the bytes
  after the 8-byte header (the verified record parse used by
  `validate_submission`, `validation.rs:46-47`);
* `recordIdFromBytes` — `Record::from_bytes(..).ok().map(|r| r.id())`
  on the same bytes (the weaker id-recovery parse used by
  `extract_record_id`, `handler.rs:200-208`). -/
structure Message where
  message_type : MessageType
  query_id : Option QueryId
  references : Option (List Reference)
  mosaic_major_version : Option Nat
  len : Nat
  application_ids : Option (List Nat)
  ownedRecordFromVec : Except CoreError Rec
  recordIdFromBytes : Option Id
deriving Repr

/-- Invariant of the external parsers: the verified parse
(`OwnedRecord::from_vec`) is strictly stronger than the id-recovery
parse (`Record::from_bytes`), so a fully verified record always yields
its id under the weaker parse. -/
def Message.ParseCoherent (m : Message) : Prop :=
  ∀ r : Rec, m.ownedRecordFromVec = .ok r → m.recordIdFromBytes = some (r.id)

instance (m : Message) : Decidable m.ParseCoherent := by
  unfold Message.ParseCoherent
  cases h : m.ownedRecordFromVec with
  | error e =>
      exact .isTrue (fun r hr => absurd hr (by simp))
  | ok r0 =>
      by_cases hid : m.recordIdFromBytes = some (r0.id)
      · exact .isTrue (fun r hr => (Except.ok.inj hr) ▸ hid)
      · exact .isFalse (fun hall => hid (hall r0 rfl))

/-- Per-connection session state (`src/client.rs`).  The remote socket
address and the peer public key are opaque to the protocol engine and
modelled as plain data. -/
structure ClientData where
  remote_address : Nat
  peer : Option Nat
  mosaic_version : Option Nat
  applications : Option (List Nat)
  closing_result : Option ResultCode
deriving DecidableEq, Repr

/-- Outbound frames the handlers construct.  `submissionResult` carries
the 32-byte id prefix that the `SUBMISSION RESULT` frame encodes. -/
inductive OutMessage where
  | helloAck (code : ResultCode) (major : Nat) (apps : List Nat)
  | submissionResult (idPre : List Nat) (code : ResultCode)
  | closing (code : ResultCode)
  | unrecognized
deriving DecidableEq, Repr

/-- `Message::new_hello_ack` (external constructor; its serialization
failure modes are not reachable for the arguments the server passes). -/
def new_hello_ack (code : ResultCode) (major : Nat) (apps : List Nat) : OutMessage :=
  .helloAck code major apps

/-- `Message::new_submission_result`: the frame stores the first 32
bytes of the record id (`id_prefix`). -/
def new_submission_result (id : Id) (code : ResultCode) : OutMessage :=
  .submissionResult (id.take 32) code

/-- `Message::new_closing`. -/
def new_closing (code : ResultCode) : OutMessage :=
  .closing code

/-- `handler.rs:10`. -/
def SUPPORTED_MAJOR_VERSION : Nat := 0

/-! ## Submission validator (`src/validation.rs`) -/

/-- Outcome of validating a Submission message before persistence
(`validation.rs:7-14`). -/
inductive SubmissionValidationError where
  | HandshakeNotComplete
  | WrongMessageType
  | RecordInvalid (e : CoreError)
deriving DecidableEq, Repr

/-- `SubmissionValidationError::result_code` (`validation.rs:19-28`). -/
def SubmissionValidationError.result_code : SubmissionValidationError → ResultCode
  | .HandshakeNotComplete => .Invalid
  | .WrongMessageType => .Invalid
  | .RecordInvalid e =>
      match e.inner with
      | .RecordTooLong => .TooLarge
      | _ => .Invalid

/-- `validate_submission` (`validation.rs:34-48`). -/
def validate_submission (message : Message) (client : ClientData) :
    Except SubmissionValidationError Rec :=
  if message.message_type ≠ .Submission then
    .error .WrongMessageType
  else if client.mosaic_version.isNone || client.applications.isNone then
    .error .HandshakeNotComplete
  else
    match message.ownedRecordFromVec with
    | .ok record => .ok record
    | .error e => .error (.RecordInvalid e)

/-! ## Store contract (`src/store.rs`) -/

/-- The `Store` trait (`store.rs:16-25`), as a record of operations over
an implementation-chosen state type `σ`.  `put_record` may change the
state (the Rust trait mutates through interior mutability); `has_record`
and `get_record` are probes. -/
structure StoreModel (σ : Type) where
  put_record : σ → Rec → (Except Error PutResult) × σ
  has_record : σ → Reference → Except Error Bool
  get_record : σ → Reference → Except Error (Option Rec)

/-- State of the in-memory reference store: records keyed by id bytes. -/
abbrev ListStoreState := List (Id × Rec)

/-- Key lookup in the in-memory store state. -/
def listStoreFind (st : ListStoreState) (k : List Nat) : Option Rec :=
  (st.find? (fun p => p.1 = k)).map (fun p => p.2)

/-- The in-memory `Store` implementation the repository uses
(`handler.rs:224-263`): insert keyed by id bytes, `Duplicate` when the
key is present, probes by byte equality with the reference. -/
def ListStore : StoreModel ListStoreState where
  put_record st r :=
    if (listStoreFind st r.id).isSome then
      (.ok .Duplicate, st)
    else
      (.ok .Inserted, (r.id, r) :: st)
  has_record st ref := .ok (listStoreFind st ref).isSome
  get_record st ref := .ok (listStoreFind st ref)

/-- The always-failing store used by the repository's own tests
(`handler.rs:306-323`): `put_record` errors, probes answer negatively. -/
def FailingStore : StoreModel Unit where
  put_record st _ := (.error (InnerError.General "store failure").into_err, st)
  has_record _ _ := .ok false
  get_record _ _ := .ok none

/-- A store whose `get_record` fails with a backend error — a legal
implementation of the `Store` trait, whose `get_record` returns
`Result<Option<OwnedRecord>, Error>` (`store.rs:24`). -/
def FailingGetStore : StoreModel Unit where
  put_record st _ := (.error (InnerError.General "store failure").into_err, st)
  has_record _ _ := .error (InnerError.General "store failure").into_err
  get_record _ _ := .error (InnerError.General "store failure").into_err

/-! ## Message handler (`src/handler.rs`) -/

/-- `GetResponse` (`handler.rs:12-16`). -/
structure GetResponse where
  query_id : QueryId
  records : List Rec
  result_code : ResultCode
deriving DecidableEq, Repr

/-- The reference-lookup loop of `handle_get` (`handler.rs:43-48`):
look up each reference in order, keep the hits, propagate the first
store error. -/
def lookup_references {σ : Type} (S : StoreModel σ) (st : σ) :
    List Reference → Except Error (List Rec)
  | [] => .ok []
  | ref :: rest =>
    match S.get_record st ref with
    | .error e => .error e
    | .ok none => lookup_references S st rest
    | .ok (some record) =>
      match lookup_references S st rest with
      | .error e => .error e
      | .ok records => .ok (record :: records)

/-- `handle_get` (`handler.rs:18-61`). -/
def handle_get {σ : Type} (S : StoreModel σ) (message : Message)
    (client_data : ClientData) (st : σ) : Except Error GetResponse :=
  match message.query_id with
  | none => .error (InnerError.General "GET message missing query id").into_err
  | some query_id =>
    if client_data.mosaic_version.isNone || client_data.applications.isNone then
      .ok ⟨query_id, [], .Invalid⟩
    else
      match message.references with
      | none => .ok ⟨query_id, [], .Invalid⟩
      | some references =>
        match lookup_references S st references with
        | .error e => .error e
        | .ok found_records =>
          .ok ⟨query_id, found_records,
               if found_records.isEmpty then .NotFound else .Success⟩

/-- `handle_hello` (`handler.rs:90-139`): returns the optional reply and
the updated session state. -/
def handle_hello (message : Message) (client_data : ClientData) :
    (Option OutMessage) × ClientData :=
  if client_data.mosaic_version.isSome then
    (none, client_data)
  else
    match message.mosaic_major_version with
    | none =>
      (some (new_hello_ack .Invalid SUPPORTED_MAJOR_VERSION []),
       { client_data with closing_result := some .Invalid })
    | some client_version =>
      if client_version ≠ SUPPORTED_MAJOR_VERSION then
        (some (new_hello_ack .Invalid SUPPORTED_MAJOR_VERSION []),
         { client_data with closing_result := some .Invalid })
      else if message.len < 8 ∨ (message.len - 8) % 4 ≠ 0 then
        (some (new_hello_ack .Invalid SUPPORTED_MAJOR_VERSION []),
         { client_data with closing_result := some .Invalid })
      else
        match message.application_ids with
        | none =>
          (some (new_hello_ack .Invalid SUPPORTED_MAJOR_VERSION []),
           { client_data with closing_result := some .Invalid })
        | some requested_apps =>
          let accepted_apps := requested_apps.filter (fun app => app = 0)
          (some (new_hello_ack .Success SUPPORTED_MAJOR_VERSION accepted_apps),
           { client_data with
               mosaic_version := some SUPPORTED_MAJOR_VERSION,
               applications := some accepted_apps,
               closing_result := none })

/-- `extract_record_id` (`handler.rs:200-208`). -/
def extract_record_id (message : Message) : Option Id :=
  if message.message_type ≠ .Submission then
    none
  else
    message.recordIdFromBytes

/-- The entry the handler hands `logger.log_client_error` when a
submission fails validation (`handler.rs:187-198`); the Rust code embeds
the debug rendering of the validation error in the string. -/
def validation_log_entry (_validation_err : SubmissionValidationError) : Error :=
  (InnerError.General "submission validation failed").into_err

/-- `handle_submission` (`handler.rs:142-185`): returns the reply, the
session state, the store state and the errors passed to the logger, in
order.  Every Rust branch of this function returns `Ok`, so the result
is total. -/
def handle_submission {σ : Type} (S : StoreModel σ) (message : Message)
    (client_data : ClientData) (st : σ) :
    OutMessage × ClientData × σ × List Error :=
  match validate_submission message client_data with
  | .ok record =>
    let id := record.id
    match S.put_record st record with
    | (.ok .Inserted, st') =>
      (new_submission_result id .Accepted, client_data, st', [])
    | (.ok .Duplicate, st') =>
      (new_submission_result id .Duplicate, client_data, st', [])
    | (.error store_err, st') =>
      (new_submission_result id .GeneralError, client_data, st', [store_err])
  | .error validation_err =>
    let log1 := validation_log_entry validation_err
    let result_code := validation_err.result_code
    match extract_record_id message with
    | some record_id =>
      (new_submission_result record_id result_code, client_data, st, [log1])
    | none =>
      (new_closing .Invalid, client_data, st,
       [log1, (InnerError.General "submission contained an unreadable record").into_err])

/-- `handle_mosaic_message` (`handler.rs:63-88`): dispatch on message
type.  `Query`, `Subscribe` and `Unsubscribe` hit `todo!()` and panic
the connection task, modelled as `none`; the dispatcher consumes `Get`
silently (`handler.rs:71`). -/
def handle_mosaic_message {σ : Type} (S : StoreModel σ) (message : Message)
    (client_data : ClientData) (st : σ) :
    Option ((Option OutMessage) × ClientData × σ × List Error) :=
  match message.message_type with
  | .Hello =>
    let (reply, client') := handle_hello message client_data
    some (reply, client', st, [])
  | .Get => some (none, client_data, st, [])
  | .Query => none
  | .Subscribe => none
  | .Unsubscribe => none
  | .Submission =>
    let (reply, client', st', log) := handle_submission S message client_data st
    some (some reply, client', st', log)
  | _ => some (some .unrecognized, client_data, st, [])

/-! ## Connection driver (`src/lib.rs`) -/

/-- The message loop of `handle_quic_client` (`lib.rs:150-192`),
projected to the evolution of the session and store state: each inbound
message is dispatched to the handler; when a reply was sent the driver
takes `closing_result`, and if it was staged it sends `Closing` and
closes the connection, ending the loop.  A `todo!()` panic also ends the
task.  Replies and log output do not affect this state and are dropped
here. -/
def run {σ : Type} (S : StoreModel σ) :
    List Message → ClientData → σ → ClientData × σ
  | [], client_data, st => (client_data, st)
  | message :: rest, client_data, st =>
    match handle_mosaic_message S message client_data st with
    | none => (client_data, st)
    | some (reply, client', st', _) =>
      match reply with
      | none => run S rest client' st'
      | some _ =>
        match client'.closing_result with
        | some _ => ({ client' with closing_result := none }, st')
        | none => run S rest client' st'

/-- The conditions under which a HELLO received on an unhandshaked
session completes the handshake (`handler.rs:96-139`): advertised major
version 0, frame length at least 8 and congruent to 8 modulo 4, and a
parseable application-id vector. -/
def helloCompletes (m : Message) : Prop :=
  m.message_type = MessageType.Hello
  ∧ m.mosaic_major_version = some 0
  ∧ 8 ≤ m.len
  ∧ (m.len - 8) % 4 = 0
  ∧ m.application_ids ≠ none

instance (m : Message) : Decidable (helloCompletes m) := by
  unfold helloCompletes
  infer_instance

/-! ## LMDB store adapter (`src/store.rs`) -/

/-- Error kinds of the external `mosaic-store-lmdb` crate
(`store.rs:69-79` matches on all of them); payloads of wrapped foreign
errors are reduced to their display strings. -/
inductive LmdbInnerError where
  | General (s : String)
  | IoErr (s : String)
  | Lmdb (s : String)
  | BufferTooSmall
  | EndOfInput
  | FilterTooWide
  | MosaicCore (s : String)
  | Duplicate
deriving DecidableEq, Repr

/-- `map_store_error` (`store.rs:69-82`). -/
def map_store_error : LmdbInnerError → Error
  | .General msg => (InnerError.General msg).into_err
  | .IoErr err => (InnerError.General ("lmdb io error: " ++ err)).into_err
  | .Lmdb err => (InnerError.General ("lmdb backend error: " ++ err)).into_err
  | .BufferTooSmall => (InnerError.General "lmdb store buffer too small").into_err
  | .EndOfInput => (InnerError.General "lmdb store unexpected end of input").into_err
  | .FilterTooWide => (InnerError.General "lmdb store filter too wide").into_err
  | .MosaicCore err => (InnerError.General ("lmdb core error: " ++ err)).into_err
  | .Duplicate => (InnerError.General "lmdb store duplicate").into_err

/-- The result mapping of `LmdbStore::put_record` (`store.rs:39-47`) as
a function of the raw engine outcome: `Ok` becomes `Inserted`, the
engine's native `Duplicate` error becomes `PutResult::Duplicate`, and
every other engine failure is surfaced through `map_store_error`. -/
def lmdb_put_of_raw (raw : Except LmdbInnerError Unit) : Except Error PutResult :=
  match raw with
  | .ok _ => .ok .Inserted
  | .error e =>
    match e with
    | .Duplicate => .ok .Duplicate
    | other => .error (map_store_error other)

/-- State of the content-addressed LMDB engine: records keyed by id. -/
abbrev RawLmdbState := List (Id × Rec)

/-- Modelled from the spec: the external `mosaic-store-lmdb` engine
(`RawLmdbStore`), which is not part of this repository.  Per §4.2 the
engine inserts a record keyed by its Id and signals its native
"duplicate" error when a record with the same Id already exists; the
adapter in `store.rs` is translated from the source against this
model. -/
def raw_store_record (st : RawLmdbState) (record : Rec) :
    (Except LmdbInnerError Unit) × RawLmdbState :=
  if (listStoreFind st record.id).isSome then
    (.error .Duplicate, st)
  else
    (.ok (), (record.id, record) :: st)

/-- Modelled from the spec: the engine's existence probe, keyed by the
48-byte reference (equal to the id bytes, §3 and §4.2). -/
def raw_has_record (st : RawLmdbState) (ref : Reference) :
    Except LmdbInnerError Bool :=
  .ok (listStoreFind st ref).isSome

/-- `LmdbStore::put_record` (`store.rs:39-47`): run the engine, then map
its outcome through `lmdb_put_of_raw`. -/
def LmdbStore.put_record (st : RawLmdbState) (record : Rec) :
    (Except Error PutResult) × RawLmdbState :=
  let (raw, st') := raw_store_record st record
  (lmdb_put_of_raw raw, st')

/-- `LmdbStore::has_record` (`store.rs:49-51`). -/
def LmdbStore.has_record (st : RawLmdbState) (ref : Reference) :
    Except Error Bool :=
  match raw_has_record st ref with
  | .ok b => .ok b
  | .error e => .error (map_store_error e)

/-- The result of the `(n+1)`-th call of `LmdbStore::put_record` with
the same record on the same store, together with the state after it. -/
def put_record_times : Nat → RawLmdbState → Rec → (Except Error PutResult) × RawLmdbState
  | 0, st, record => LmdbStore.put_record st record
  | n + 1, st, record => put_record_times n (LmdbStore.put_record st record).2 record

/-! ## Concrete sample inputs -/

/-- A sample verified record with a 48-byte id. -/
def sampleRec : Rec :=
  { id := List.range 48, bytes := List.range 60 }

/-- A fresh, unhandshaked session. -/
def clientFresh : ClientData :=
  { remote_address := 0, peer := none, mosaic_version := none,
    applications := none, closing_result := none }

/-- A session after a successful HELLO that accepted application 0. -/
def clientHandshaked : ClientData :=
  { remote_address := 0, peer := none, mosaic_version := some 0,
    applications := some [0], closing_result := none }

/-- A session after a successful HELLO whose accepted set is empty. -/
def clientNoApps : ClientData :=
  { remote_address := 0, peer := none, mosaic_version := some 0,
    applications := some [], closing_result := none }

/-- A well-formed HELLO advertising major version 0 and apps `[0, 7, 0]`. -/
def helloMsgOk : Message :=
  { message_type := .Hello, query_id := none, references := none,
    mosaic_major_version := some 0, len := 20,
    application_ids := some [0, 7, 0],
    ownedRecordFromVec := .error ⟨.Other "not a submission"⟩,
    recordIdFromBytes := none }

/-- A HELLO advertising the unsupported major version 3. -/
def helloMsgBadVer : Message :=
  { message_type := .Hello, query_id := none, references := none,
    mosaic_major_version := some 3, len := 12,
    application_ids := some [0],
    ownedRecordFromVec := .error ⟨.Other "not a submission"⟩,
    recordIdFromBytes := none }

/-- A Submission frame whose record bytes verify to `sampleRec`. -/
def submissionMsgOk : Message :=
  { message_type := .Submission, query_id := none, references := none,
    mosaic_major_version := none, len := 142,
    application_ids := none,
    ownedRecordFromVec := .ok sampleRec,
    recordIdFromBytes := some sampleRec.id }

/-- A Submission frame whose record bytes are unreadable: the verified
parse fails and no record id can be recovered. -/
def submissionMsgBad : Message :=
  { message_type := .Submission, query_id := none, references := none,
    mosaic_major_version := none, len := 142,
    application_ids := none,
    ownedRecordFromVec := .error ⟨.Other "signature check failed"⟩,
    recordIdFromBytes := none }

/-- A GET frame asking for `sampleRec` under query id 7. -/
def getMsgFound : Message :=
  { message_type := .Get, query_id := some 7,
    references := some [idToReference sampleRec.id],
    mosaic_major_version := none, len := 58,
    application_ids := none,
    ownedRecordFromVec := .error ⟨.Other "not a submission"⟩,
    recordIdFromBytes := none }

/-! ## Helper lemmas -/

/-- On an unhandshaked session, any HELLO that misses one of the
acceptance conditions produces the invalid acknowledgement and stages
the `Invalid` closing code. -/
theorem handle_hello_reject (message : Message) (client_data : ClientData)
    (hv : client_data.mosaic_version = none)
    (hno : ¬ (message.mosaic_major_version = some 0 ∧ 8 ≤ message.len
              ∧ (message.len - 8) % 4 = 0 ∧ message.application_ids ≠ none)) :
    handle_hello message client_data =
      (some (new_hello_ack ResultCode.Invalid SUPPORTED_MAJOR_VERSION []),
       { client_data with closing_result := some ResultCode.Invalid }) := by
  unfold handle_hello
  rw [hv]
  simp only [Option.isSome_none, Bool.false_eq_true, if_false]
  cases hm : message.mosaic_major_version with
  | none => rfl
  | some v =>
    dsimp only
    by_cases hv0 : v ≠ SUPPORTED_MAJOR_VERSION
    · rw [if_pos hv0]
    · rw [if_neg hv0]
      push_neg at hv0
      by_cases hlen : message.len < 8 ∨ (message.len - 8) % 4 ≠ 0
      · rw [if_pos hlen]
      · rw [if_neg hlen]
        push_neg at hlen
        cases ha : message.application_ids with
        | none => rfl
        | some apps =>
          exfalso
          refine hno ⟨?_, hlen.1, hlen.2, ?_⟩
          · rw [hm, hv0]; rfl
          · rw [ha]; exact fun h => Option.noConfusion h

/-- A successful `validate_submission` comes from a successful verified
parse of the record bytes. -/
theorem validate_submission_ok_parse (message : Message) (client : ClientData)
    (record : Rec) (h : validate_submission message client = .ok record) :
    message.ownedRecordFromVec = .ok record := by
  unfold validate_submission at h
  by_cases hty : message.message_type ≠ MessageType.Submission
  · rw [if_pos hty] at h; cases h
  · rw [if_neg hty] at h
    by_cases hh : (client.mosaic_version.isNone || client.applications.isNone) = true
    · rw [if_pos hh] at h; cases h
    · rw [if_neg hh] at h
      cases hp : message.ownedRecordFromVec with
      | ok r => rw [hp] at h; cases h; rfl
      | error e => rw [hp] at h; cases h

/-! ## Claims -/

/-- C5: submission validation failures map to result codes as follows:
`WrongMessageType` and `HandshakeNotComplete` map to `Invalid`, and
`RecordInvalid(cause)` maps to `Invalid` unless the cause is the
record-too-long error, in which case it maps to `TooLarge`. -/
theorem submission_error_code_map :
    SubmissionValidationError.WrongMessageType.result_code = ResultCode.Invalid
    ∧ SubmissionValidationError.HandshakeNotComplete.result_code = ResultCode.Invalid
    ∧ ∀ e : CoreError,
        (SubmissionValidationError.RecordInvalid e).result_code =
          if e.inner = CoreInnerError.RecordTooLong then ResultCode.TooLarge
          else ResultCode.Invalid := by
  refine ⟨rfl, rfl, fun e => ?_⟩
  obtain ⟨inner⟩ := e
  cases inner <;> rfl

/-- C9: a HELLO received on a session whose version is already set is
ignored: no reply, and the session state is returned unchanged. -/
theorem duplicate_hello_silent (message : Message) (client_data : ClientData)
    (v : Nat) (hv : client_data.mosaic_version = some v) :
    handle_hello message client_data = (none, client_data) := by
  unfold handle_hello
  rw [hv]
  rfl

/-- Witness for C9 at a concrete handshaked session. -/
theorem duplicate_hello_silent_witness :
    handle_hello helloMsgOk clientHandshaked = (none, clientHandshaked) :=
  duplicate_hello_silent helloMsgOk clientHandshaked 0 rfl

/-- C2: a HELLO on an unhandshaked session advertising major version 0,
with `len ≥ 8`, `(len - 8) % 4 = 0` and a parseable application-id
vector, is acknowledged with `HelloAck(Success, 0, accepted)` where
`accepted` keeps exactly the requested ids equal to 0 in order; the
session's version becomes 0, its applications become `accepted`, and
its closing_result is cleared. -/
theorem hello_success_negotiates (message : Message) (client_data : ClientData)
    (requested : List Nat)
    (hv : client_data.mosaic_version = none)
    (hmaj : message.mosaic_major_version = some 0)
    (hlen : 8 ≤ message.len)
    (hmod : (message.len - 8) % 4 = 0)
    (happs : message.application_ids = some requested) :
    handle_hello message client_data =
      (some (OutMessage.helloAck ResultCode.Success 0
               (requested.filter (fun app => app = 0))),
       { client_data with
           mosaic_version := some 0,
           applications := some (requested.filter (fun app => app = 0)),
           closing_result := none }) := by
  unfold handle_hello
  rw [hv, hmaj, happs]
  dsimp only
  rw [if_neg (show ¬(0 ≠ SUPPORTED_MAJOR_VERSION) from by
        simp [SUPPORTED_MAJOR_VERSION])]
  rw [if_neg (show ¬(message.len < 8 ∨ (message.len - 8) % 4 ≠ 0) from by
        rw [hmod]; simp [Nat.not_lt.mpr hlen])]
  rfl

/-- Witness for C2: requested `[0, 7, 0]` yields accepted `[0, 0]`. -/
theorem hello_success_negotiates_witness :
    handle_hello helloMsgOk clientFresh =
      (some (OutMessage.helloAck ResultCode.Success 0
               (([0, 7, 0] : List Nat).filter (fun app => app = 0))),
       { clientFresh with
           mosaic_version := some 0,
           applications := some (([0, 7, 0] : List Nat).filter (fun app => app = 0)),
           closing_result := none }) :=
  hello_success_negotiates helloMsgOk clientFresh [0, 7, 0]
    rfl rfl (by decide) (by decide) rfl

/-- C8: a HELLO on an unhandshaked session whose advertised major
version is missing or different from 0, or whose frame length violates
`len ≥ 8 ∧ (len - 8) % 4 = 0`, or whose application-id vector fails to
parse, stages `closing_result = Invalid` and is acknowledged with
`HelloAck(Invalid, 0, [])`, while the session's version and
applications stay unset. -/
theorem hello_rejects_bad_advertisement (message : Message)
    (client_data : ClientData)
    (hv : client_data.mosaic_version = none)
    (ha : client_data.applications = none)
    (hbad : message.mosaic_major_version = none
      ∨ (∃ v, message.mosaic_major_version = some v ∧ v ≠ 0)
      ∨ message.len < 8
      ∨ (message.len - 8) % 4 ≠ 0
      ∨ message.application_ids = none) :
    handle_hello message client_data =
      (some (OutMessage.helloAck ResultCode.Invalid 0 []),
       { client_data with closing_result := some ResultCode.Invalid })
    ∧ (handle_hello message client_data).2.mosaic_version = none
    ∧ (handle_hello message client_data).2.applications = none := by
  have hrej := handle_hello_reject message client_data hv ?_
  · refine ⟨hrej, ?_, ?_⟩
    · rw [hrej]; exact hv
    · rw [hrej]; exact ha
  · rintro ⟨hmaj, hlen, hmod, happs⟩
    rcases hbad with h | ⟨v, hsome, hne⟩ | h | h | h
    · rw [hmaj] at h; cases h
    · rw [hmaj] at hsome; exact hne (Option.some.inj hsome).symm
    · exact Nat.not_lt.mpr hlen h
    · exact h hmod
    · exact happs h

/-- Witness for C8 at a HELLO advertising unsupported major version 3. -/
theorem hello_rejects_bad_advertisement_witness :
    (handle_hello helloMsgBadVer clientFresh =
      (some (OutMessage.helloAck ResultCode.Invalid 0 []),
       { clientFresh with closing_result := some ResultCode.Invalid })
    ∧ (handle_hello helloMsgBadVer clientFresh).2.mosaic_version = none
    ∧ (handle_hello helloMsgBadVer clientFresh).2.applications = none) :=
  hello_rejects_bad_advertisement helloMsgBadVer clientFresh rfl rfl
    (Or.inr (Or.inl ⟨3, rfl, by decide⟩))

/-- C3: a submission that passes validation on a handshaked session is
answered by a `SubmissionResult` carrying the first 32 bytes of the
record's id, coded `Accepted` on `Inserted`, `Duplicate` on `Duplicate`,
and `GeneralError` on a backend error (which is passed to the logger);
the session state is unchanged in every case, so the connection is
never closed here. -/
theorem valid_submission_reply {σ : Type} (S : StoreModel σ) (st : σ)
    (message : Message) (client_data : ClientData) (record : Rec)
    (hty : message.message_type = MessageType.Submission)
    (hv : client_data.mosaic_version.isSome)
    (ha : client_data.applications.isSome)
    (hrec : message.ownedRecordFromVec = .ok record) :
    handle_submission S message client_data st =
      (OutMessage.submissionResult (record.id.take 32)
         (match (S.put_record st record).1 with
          | .ok .Inserted => ResultCode.Accepted
          | .ok .Duplicate => ResultCode.Duplicate
          | .error _ => ResultCode.GeneralError),
       client_data,
       (S.put_record st record).2,
       match (S.put_record st record).1 with
       | .ok _ => []
       | .error e => [e]) := by
  obtain ⟨v0, hv0⟩ := Option.isSome_iff_exists.mp hv
  obtain ⟨as0, ha0⟩ := Option.isSome_iff_exists.mp ha
  have hval : validate_submission message client_data = .ok record := by
    unfold validate_submission
    rw [hty, hv0, ha0, hrec]
    rfl
  unfold handle_submission
  rw [hval]
  dsimp only
  rcases hput : S.put_record st record with ⟨res, st'⟩
  rcases res with e | pr
  · simp [new_submission_result]
  · cases pr <;> simp [new_submission_result]

/-- Witness for C3: the sample record inserted into the empty in-memory
store is `Accepted` and echoes the 32-byte id prefix. -/
theorem valid_submission_reply_witness :
    handle_submission ListStore submissionMsgOk clientHandshaked [] =
      (OutMessage.submissionResult (sampleRec.id.take 32)
         (match (ListStore.put_record [] sampleRec).1 with
          | .ok .Inserted => ResultCode.Accepted
          | .ok .Duplicate => ResultCode.Duplicate
          | .error _ => ResultCode.GeneralError),
       clientHandshaked,
       (ListStore.put_record [] sampleRec).2,
       match (ListStore.put_record [] sampleRec).1 with
       | .ok _ => []
       | .error e => [e]) :=
  valid_submission_reply ListStore [] submissionMsgOk clientHandshaked sampleRec
    rfl rfl rfl rfl

/-- C1 counterexample: on a Submission whose record bytes are
unrecoverable, the handler replies `Closing(Invalid)` but leaves the
session's `closing_result` at `none` — it does not stage the `Invalid`
code for the connection driver, contrary to the claim. -/
theorem unreadable_submission_not_staged :
    (handle_submission ListStore submissionMsgBad clientHandshaked []).1 =
      OutMessage.closing ResultCode.Invalid
    ∧ (handle_submission ListStore submissionMsgBad clientHandshaked []).2.1.closing_result
        = none := ⟨rfl, rfl⟩

/-- C1 (amended): on a Submission whose record bytes are unrecoverable
(no record id), the handler logs, replies `Closing(Invalid)`, and leaves
the session state and the store unchanged; in particular no code is
staged in `closing_result`, so the connection driver does not close the
connection on this path. -/
theorem unreadable_submission_replies_closing {σ : Type} (S : StoreModel σ)
    (st : σ) (message : Message) (client_data : ClientData)
    (hty : message.message_type = MessageType.Submission)
    (hid : message.recordIdFromBytes = none)
    (hcoh : message.ParseCoherent) :
    (handle_submission S message client_data st).1 =
        OutMessage.closing ResultCode.Invalid
    ∧ (handle_submission S message client_data st).2.1 = client_data
    ∧ (handle_submission S message client_data st).2.2.1 = st
    ∧ (handle_submission S message client_data st).2.2.2 ≠ [] := by
  have hex : extract_record_id message = none := by
    unfold extract_record_id
    rw [if_neg (by rw [hty]; exact fun h => h rfl)]
    exact hid
  cases hval : validate_submission message client_data with
  | ok record =>
    exfalso
    have := hcoh record (validate_submission_ok_parse message client_data record hval)
    rw [hid] at this
    cases this
  | error verr =>
    unfold handle_submission
    rw [hval]
    dsimp only
    rw [hex]
    exact ⟨rfl, rfl, rfl, by simp⟩

/-- Witness for the amended C1 on a concrete corrupted submission. -/
theorem unreadable_submission_replies_closing_witness :
    (handle_submission ListStore submissionMsgBad clientFresh []).1 =
        OutMessage.closing ResultCode.Invalid
    ∧ (handle_submission ListStore submissionMsgBad clientFresh []).2.1 = clientFresh
    ∧ (handle_submission ListStore submissionMsgBad clientFresh []).2.2.1 = []
    ∧ (handle_submission ListStore submissionMsgBad clientFresh []).2.2.2 ≠ [] :=
  unreadable_submission_replies_closing ListStore [] submissionMsgBad clientFresh
    rfl rfl (fun _ hr => Except.noConfusion hr)

/-- C4 counterexample: on a store whose `get_record` fails, `handle_get`
returns a hard error even though the query-id is present, refuting
"hard error iff the query-id is absent". -/
theorem get_hard_error_despite_query_id :
    handle_get FailingGetStore getMsgFound clientHandshaked () =
      .error (InnerError.General "store failure").into_err
    ∧ getMsgFound.query_id = some 7 := ⟨rfl, rfl⟩

/-- C4 (amended): `handle_get` returns a hard error iff the query-id is
absent or a store lookup fails; with a query-id present it returns
`{records: [], Invalid}` when the session is not handshaked or the
references cannot be decoded, and otherwise looks up each reference in
order, collects the hits, propagating a store error, and answers
`Success` iff at least one record was found, else `NotFound`. -/
theorem handle_get_characterization {σ : Type} (S : StoreModel σ) (st : σ)
    (message : Message) (client_data : ClientData) :
    (message.query_id = none →
        handle_get S message client_data st =
          .error (InnerError.General "GET message missing query id").into_err)
    ∧ (∀ q, message.query_id = some q →
        ((client_data.mosaic_version = none ∨ client_data.applications = none) →
            handle_get S message client_data st = .ok ⟨q, [], ResultCode.Invalid⟩)
        ∧ (∀ v apps, client_data.mosaic_version = some v →
            client_data.applications = some apps →
            (message.references = none →
                handle_get S message client_data st = .ok ⟨q, [], ResultCode.Invalid⟩)
            ∧ (∀ refs e, message.references = some refs →
                lookup_references S st refs = .error e →
                handle_get S message client_data st = .error e)
            ∧ (∀ refs found, message.references = some refs →
                lookup_references S st refs = .ok found →
                handle_get S message client_data st =
                  .ok ⟨q, found,
                       if found.isEmpty then ResultCode.NotFound
                       else ResultCode.Success⟩))) := by
  constructor
  · intro hq
    unfold handle_get
    rw [hq]
  · intro q hq
    constructor
    · intro hun
      unfold handle_get
      rw [hq]
      dsimp only
      rw [if_pos ?_]
      rcases hun with h | h <;> rw [h] <;> simp
    · intro v apps hv ha
      have hcond : ¬(client_data.mosaic_version.isNone
          || client_data.applications.isNone) = true := by
        rw [hv, ha]; simp
      refine ⟨?_, ?_, ?_⟩
      · intro hr
        unfold handle_get
        rw [hq]
        dsimp only
        rw [if_neg hcond, hr]
      · intro refs e hr hl
        unfold handle_get
        rw [hq]
        dsimp only
        rw [if_neg hcond, hr]
        dsimp only
        rw [hl]
      · intro refs found hr hl
        unfold handle_get
        rw [hq]
        dsimp only
        rw [if_neg hcond, hr]
        dsimp only
        rw [hl]

/-- Witness for the amended C4: the sample record is found under its
reference and answered with `Success`. -/
theorem handle_get_characterization_witness :
    handle_get ListStore getMsgFound clientHandshaked
        [(sampleRec.id, sampleRec)] =
      .ok ⟨7, [sampleRec],
           if ([sampleRec] : List Rec).isEmpty then ResultCode.NotFound
           else ResultCode.Success⟩ :=
  (((handle_get_characterization ListStore [(sampleRec.id, sampleRec)]
        getMsgFound clientHandshaked).2 7 rfl).2 0 [0] rfl rfl).2.2
    [idToReference sampleRec.id] [sampleRec] rfl rfl

/-- C10: once version and applications are both set, submission
validation and GET succeed regardless of the content of the accepted
applications list — only presence is checked, never membership: a valid
record is accepted and stored even when the accepted list is empty, and
GET still retrieves it. -/
theorem handshaked_ignores_app_content (client_data : ClientData)
    (v : Nat) (apps : List Nat) (message : Message) (record : Rec)
    (hv : client_data.mosaic_version = some v)
    (ha : client_data.applications = some apps)
    (hty : message.message_type = MessageType.Submission)
    (hrec : message.ownedRecordFromVec = .ok record) :
    validate_submission message client_data = .ok record
    ∧ handle_submission ListStore message client_data [] =
        (OutMessage.submissionResult (record.id.take 32) ResultCode.Accepted,
         client_data, [(record.id, record)], [])
    ∧ (∀ q gm, Message.query_id gm = some q →
        Message.references gm = some [idToReference record.id] →
        handle_get ListStore gm client_data [(record.id, record)] =
          .ok ⟨q, [record], ResultCode.Success⟩) := by
  have hval : validate_submission message client_data = .ok record := by
    unfold validate_submission
    rw [hty, hv, ha, hrec]
    rfl
  refine ⟨hval, ?_, ?_⟩
  · unfold handle_submission
    rw [hval]
    dsimp only
    have hput : ListStore.put_record [] record =
        (.ok .Inserted, [(record.id, record)]) := by
      unfold ListStore listStoreFind
      simp
    rw [hput]
    rfl
  · intro q gm hq hr
    have hchar := ((handle_get_characterization ListStore [(record.id, record)]
        gm client_data).2 q hq).2 v apps hv ha
    have hfind : List.find? (fun p => decide (p.1 = idToReference record.id))
        [(record.id, record)] = some (record.id, record) :=
      List.find?_cons_of_pos _ (by simp [idToReference])
    have hl : lookup_references ListStore [(record.id, record)]
        [idToReference record.id] = .ok [record] := by
      simp [lookup_references, ListStore, listStoreFind, hfind]
    simpa using hchar.2.2 [idToReference record.id] [record] hr hl

/-- Witness for C10 at a session whose accepted application list is
empty. -/
theorem handshaked_ignores_app_content_witness :
    validate_submission submissionMsgOk clientNoApps = .ok sampleRec
    ∧ handle_submission ListStore submissionMsgOk clientNoApps [] =
        (OutMessage.submissionResult (sampleRec.id.take 32) ResultCode.Accepted,
         clientNoApps, [(sampleRec.id, sampleRec)], [])
    ∧ (∀ q gm, Message.query_id gm = some q →
        Message.references gm = some [idToReference sampleRec.id] →
        handle_get ListStore gm clientNoApps [(sampleRec.id, sampleRec)] =
          .ok ⟨q, [sampleRec], ResultCode.Success⟩) :=
  handshaked_ignores_app_content clientNoApps 0 [] submissionMsgOk sampleRec
    rfl rfl rfl rfl

/-- Inserting into a state without the record's id succeeds. -/
theorem lmdb_put_absent (st : RawLmdbState) (record : Rec)
    (h : listStoreFind st record.id = none) :
    LmdbStore.put_record st record =
      (.ok .Inserted, (record.id, record) :: st) := by
  unfold LmdbStore.put_record raw_store_record
  rw [h]
  rfl

/-- Inserting into a state that has the record's id reports the
duplicate and keeps the state. -/
theorem lmdb_put_present (st : RawLmdbState) (record : Rec)
    (h : (listStoreFind st record.id).isSome) :
    LmdbStore.put_record st record = (.ok .Duplicate, st) := by
  unfold LmdbStore.put_record raw_store_record
  rw [if_pos h]
  rfl

/-- A freshly inserted record is found under its id. -/
theorem listStoreFind_cons_self (st : RawLmdbState) (record : Rec) :
    listStoreFind ((record.id, record) :: st) record.id = some record := by
  unfold listStoreFind
  rw [List.find?_cons_of_pos _ (by simp)]
  rfl

/-- Repeated insertion of a record already present keeps answering
`Duplicate` without changing the state. -/
theorem put_times_present (record : Rec) :
    ∀ (n : Nat) (st : RawLmdbState), (listStoreFind st record.id).isSome →
      put_record_times n st record = (.ok .Duplicate, st)
  | 0, st, h => lmdb_put_present st record h
  | n + 1, st, h => by
      unfold put_record_times
      rw [lmdb_put_present st record h]
      exact put_times_present record n st h

/-- C6: starting from a store without the record, the first
`put_record` returns `Inserted` and every subsequent one returns
`Duplicate`, after which `has_record` on the record's reference answers
true; moreover the adapter maps the engine's native duplicate signal to
`PutResult::Duplicate` and surfaces every other engine failure as an
error. -/
theorem lmdb_put_record_semantics (st : RawLmdbState) (record : Rec)
    (habs : listStoreFind st record.id = none) :
    (put_record_times 0 st record).1 = .ok .Inserted
    ∧ (∀ n, 0 < n → (put_record_times n st record).1 = .ok .Duplicate)
    ∧ (∀ n, LmdbStore.has_record (put_record_times n st record).2
          (idToReference record.id) = .ok true)
    ∧ lmdb_put_of_raw (.error .Duplicate) = .ok .Duplicate
    ∧ (∀ e : LmdbInnerError, e ≠ .Duplicate →
        lmdb_put_of_raw (.error e) = .error (map_store_error e)) := by
  have h0 : put_record_times 0 st record =
      (.ok .Inserted, (record.id, record) :: st) :=
    lmdb_put_absent st record habs
  have hpres : (listStoreFind ((record.id, record) :: st) record.id).isSome := by
    rw [listStoreFind_cons_self]
    rfl
  have hpos : ∀ n, 0 < n → put_record_times n st record =
      (.ok .Duplicate, (record.id, record) :: st) := by
    intro n hn
    cases n with
    | zero => exact absurd hn (Nat.lt_irrefl 0)
    | succ m =>
      show put_record_times m (LmdbStore.put_record st record).2 record = _
      rw [lmdb_put_absent st record habs]
      exact put_times_present record m _ hpres
  refine ⟨by rw [h0], fun n hn => by rw [hpos n hn], fun n => ?_, rfl, fun e he => ?_⟩
  · have hstate : (put_record_times n st record).2 = (record.id, record) :: st := by
      cases n with
      | zero => rw [h0]
      | succ m => rw [hpos (m + 1) (Nat.succ_pos m)]
    rw [hstate]
    unfold LmdbStore.has_record raw_has_record idToReference
    rw [listStoreFind_cons_self]
    rfl
  · cases e <;> first | rfl | exact absurd rfl he

/-- Witness for C6 at the sample record on the empty store. -/
theorem lmdb_put_record_semantics_witness :
    (put_record_times 0 [] sampleRec).1 = .ok .Inserted
    ∧ (put_record_times 3 [] sampleRec).1 = .ok .Duplicate
    ∧ LmdbStore.has_record (put_record_times 3 [] sampleRec).2
        (idToReference sampleRec.id) = .ok true
    ∧ lmdb_put_of_raw (.error .Duplicate) = .ok .Duplicate
    ∧ lmdb_put_of_raw (.error .BufferTooSmall) =
        .error (map_store_error .BufferTooSmall) :=
  ⟨(lmdb_put_record_semantics [] sampleRec rfl).1,
   (lmdb_put_record_semantics [] sampleRec rfl).2.1 3 (by decide),
   (lmdb_put_record_semantics [] sampleRec rfl).2.2.1 3,
   (lmdb_put_record_semantics [] sampleRec rfl).2.2.2.1,
   (lmdb_put_record_semantics [] sampleRec rfl).2.2.2.2 .BufferTooSmall
     (by decide)⟩

/-- C7: over any sequence of messages handled by the connection driver
starting from an unhandshaked session, as long as no HELLO in the
sequence completes the handshake, the store state is never changed — in
particular a Submission received before a successful HELLO leaves the
store untouched, for every store implementation. -/
theorem no_store_write_before_handshake {σ : Type} (S : StoreModel σ) :
    ∀ (messages : List Message) (client_data : ClientData) (st : σ),
      (client_data.mosaic_version = none ∨ client_data.applications = none) →
      (∀ m ∈ messages, ¬ helloCompletes m) →
      (run S messages client_data st).2 = st := by
  intro messages
  induction messages with
  | nil =>
    intro c st _ _
    rfl
  | cons m rest ih =>
    intro c st hun hno
    have hnom : ¬ helloCompletes m := hno m (List.mem_cons_self m rest)
    have hnorest : ∀ x ∈ rest, ¬ helloCompletes x :=
      fun x hx => hno x (List.mem_cons_of_mem m hx)
    unfold run handle_mosaic_message
    cases hty : m.message_type
    case Hello =>
      dsimp only
      rcases hv : c.mosaic_version with _ | v
      · by_cases hcond : m.mosaic_major_version = some 0 ∧ 8 ≤ m.len
            ∧ (m.len - 8) % 4 = 0 ∧ m.application_ids ≠ none
        · exact absurd ⟨hty, hcond.1, hcond.2.1, hcond.2.2.1, hcond.2.2.2⟩ hnom
        · rw [handle_hello_reject m c hv hcond]
      · rw [show handle_hello m c = (none, c) from by
              unfold handle_hello
              rw [hv]
              rfl]
        exact ih c st hun hnorest
    case Get =>
      dsimp only
      exact ih c st hun hnorest
    case Query => rfl
    case Subscribe => rfl
    case Unsubscribe => rfl
    case Submission =>
      dsimp only
      have hcond : (c.mosaic_version.isNone || c.applications.isNone) = true := by
        rcases hun with h | h <;> rw [h] <;> simp
      have hval : validate_submission m c =
          .error .HandshakeNotComplete := by
        unfold validate_submission
        rw [if_neg (show ¬m.message_type ≠ MessageType.Submission from by
              rw [hty]; exact fun h => h rfl)]
        rw [if_pos hcond]
      unfold handle_submission
      rw [hval]
      dsimp only
      cases hex : extract_record_id m with
      | some rid =>
        dsimp only
        cases hcr : c.closing_result with
        | some code => rfl
        | none => exact ih c st hun hnorest
      | none =>
        dsimp only
        cases hcr : c.closing_result with
        | some code => rfl
        | none => exact ih c st hun hnorest
    all_goals
      dsimp only
      cases hcr : c.closing_result with
      | some code => rfl
      | none => exact ih c st hun hnorest

/-- Witness for C7: a Submission then a bad HELLO on a fresh session
leave the in-memory store empty. -/
theorem no_store_write_before_handshake_witness :
    (run ListStore [submissionMsgOk, helloMsgBadVer] clientFresh []).2 = [] :=
  no_store_write_before_handshake ListStore [submissionMsgOk, helloMsgBadVer]
    clientFresh [] (Or.inl rfl) (by decide)

end MosaicServer
